import Mathlib

/-!
Verification of the EdgeFlow backend (signal distribution and
session-liveness subsystem) against its natural-language specification.

The definitions below are a shallow embedding of the JavaScript request
handlers of src/server.js (its two variants: the legacy single-mentor
server and the multi-mentor MetaApi server).  Conventions of the
embedding:

* JavaScript request fields that may be absent are Option values; the
  JavaScript truthiness test on such a field (absent, empty string or
  zero is falsy) is the functions truthyStr / truthyInt.
* Timestamps (Date.now and ISO strings derived from it) are Nat
  milliseconds.  Numeric payload fields (sl, tp, prices, lot sizes) are
  Int: the handlers never do arithmetic on them, only truthiness tests,
  so the fractional part of a JS number is irrelevant to every claim.
* The in-memory arrays (licenseKeys, signals, students) are Lean lists;
  the signals array is kept newest first, exactly as unshift keeps it.
* Math.random driven character choices are explicit Nat arguments
  (reduced mod 36, the charset length, as charAt does); the unbounded
  retry loop of license generation consumes an explicit finite supply
  of draws and returns none when the supply ends.
* In-place mutation of an object located with Array.prototype.find is
  modelled by updateFirst, which rewrites the first matching element of
  the list.
-/

namespace EdgeFlow

/-! ## JavaScript value helpers -/

/-- Truthiness of an optional JS string: absent and the empty string are falsy. -/
def truthyStr : Option String → Bool
  | none => false
  | some s => !(s == "")

/-- Truthiness of an optional JS number: absent and zero are falsy. -/
def truthyInt : Option Int → Bool
  | none => false
  | some n => !(n == 0)

/-- JS String.prototype.toUpperCase on the ASCII payloads the handlers
receive: upper-case every character. -/
def jsToUpper (s : String) : String := String.mk (s.data.map Char.toUpper)

/-- The JS idiom x || null for an optional string field. -/
def orNullStr : Option String → Option String
  | none => none
  | some s => if s == "" then none else some s

/-- The JS idiom x || null for an optional numeric field. -/
def orNullInt : Option Int → Option Int
  | none => none
  | some n => if n == 0 then none else some n

/-- Rewrites the first element satisfying p with f, as JS code does when it
mutates the object returned by Array.prototype.find in place. -/
def updateFirst (p : α → Bool) (f : α → α) : List α → List α
  | [] => []
  | x :: xs => if p x then f x :: xs else x :: updateFirst p f xs

/-! ## Data model -/

/-- One record of the licenseKeys array.  The legacy server stores
key, ea_id, user_id, active, createdAt; the multi-mentor server adds
mentor_id, so that field is optional here. -/
structure License where
  key : String
  ea_id : String
  user_id : Option String
  mentor_id : Option String
  active : Bool
  createdAt : Nat
  deriving Repr, DecidableEq

/-- One record of the signals array, as built by the /receiveSignal handler
of src/server.js. -/
structure Signal where
  id : String
  ea_id : String
  type : String
  symbol : String
  price : Option Int
  sl : Int
  tp : Int
  lot_size : Option Int
  comment : Option String
  timestamp : Nat
  deriving Repr, DecidableEq

/-- The vps_status sub-object written by the /vps/heartbeat handler. -/
structure VpsStatus where
  mt5_connected : Bool
  last_heartbeat : Nat
  deriving Repr, DecidableEq

/-- One record of the students array.  Fields that only one of the two
server variants stores (password, lot_multiplier, mentor_id,
metaapi_account_id) are optional. -/
structure Student where
  license_key : String
  account_number : String
  password : Option String
  server : String
  broker : String
  ea_id : String
  mentor_id : Option String
  lot_multiplier : Option Int
  metaapi_account_id : Option String
  status : String
  registered_at : Nat
  started_at : Option Nat
  stopped_at : Option Nat
  vps_status : Option VpsStatus
  deriving Repr, DecidableEq

/-! ## License key generation (src/server.js generateLicenseKey, /generateLicense) -/

/-- The charset of generateLicenseKey: upper-case letters then digits. -/
def licenseChars : List Char :=
  ['A', 'B', 'C', 'D', 'E', 'F', 'G', 'H', 'I', 'J', 'K', 'L', 'M',
   'N', 'O', 'P', 'Q', 'R', 'S', 'T', 'U', 'V', 'W', 'X', 'Y', 'Z',
   '0', '1', '2', '3', '4', '5', '6', '7', '8', '9']

/-- Membership in the generation charset; this is also the character class
of the validation regex, since both are exactly the upper-case letters
and digits. -/
def isKeyChar (c : Char) : Bool := decide (c ∈ licenseChars)

/-- chars.charAt(Math.floor(Math.random() * chars.length)): one random draw,
reduced mod the charset length. -/
def charAt36 (n : Nat) : Char := licenseChars.getD (n % 36) 'A'

/-- One iteration of the generation loop draws a character for segment1 and
one for segment2; three iterations consume six draws. -/
structure Rand6 where
  r0 : Nat
  r1 : Nat
  r2 : Nat
  r3 : Nat
  r4 : Nat
  r5 : Nat
  deriving Repr, DecidableEq

/-- generateLicenseKey(mentorPrefix): the prefix, a dash, three random
charset characters, a dash, three random charset characters.  Draws
r0, r2, r4 build segment1 and r1, r3, r5 build segment2, matching the
interleaved loop of the source. -/
def generateLicenseKey (mentorId : String) (r0 r1 r2 r3 r4 r5 : Nat) : String :=
  let segment1 := String.mk [charAt36 r0, charAt36 r2, charAt36 r4]
  let segment2 := String.mk [charAt36 r1, charAt36 r3, charAt36 r5]
  mentorId ++ "-" ++ segment1 ++ "-" ++ segment2

/-- The candidate key one pass of the generation loop produces from one
bundle of six draws. -/
def candidateKey (mentorId : String) (r : Rand6) : String :=
  generateLicenseKey mentorId r.r0 r.r1 r.r2 r.r3 r.r4 r.r5

/-- The collision-retry loop of /generateLicense: generate a candidate,
regenerate while some stored license already has that key.  The source
loop draws fresh randomness forever; the embedding consumes an explicit
finite supply and answers none when it runs out. -/
def freshKeyLoop (mentorId : String) (registry : List License) :
    List Rand6 → Option String
  | [] => none
  | r :: rest =>
    let k := candidateKey mentorId r
    if registry.any (fun l => l.key == k) then freshKeyLoop mentorId registry rest
    else some k

/-- Outcome of the /generateLicense handler. -/
inductive GenerateLicenseResult where
  | missingEaId
  | exhausted
  | ok (license : License)
  deriving Repr, DecidableEq

/-- The /generateLicense handler of src/server.js (legacy variant, after the
token check): require ea_id, draw a fresh non-colliding key, push the new
record with active true. -/
def generateLicense (ea_id user_id : Option String) (mentorId : String)
    (now : Nat) (rnds : List Rand6) (registry : List License) :
    GenerateLicenseResult × List License :=
  if !(truthyStr ea_id) then (.missingEaId, registry)
  else
    match freshKeyLoop mentorId registry rnds with
    | none => (.exhausted, registry)
    | some licenseKey =>
      let newLicense : License :=
        { key := licenseKey
          ea_id := ea_id.getD ""
          user_id := orNullStr user_id
          mentor_id := none
          active := true
          createdAt := now }
      (.ok newLicense, registry ++ [newLicense])

/-- One issuance request: its body fields, its clock reading and the
randomness the generation loop may consume. -/
structure GenReq where
  ea_id : Option String
  user_id : Option String
  now : Nat
  rnds : List Rand6
  deriving Repr, DecidableEq

/-- A sequence of /generateLicense requests applied to a registry. -/
def issueMany (mentorId : String) : List GenReq → List License → List License
  | [], registry => registry
  | q :: rest, registry =>
    issueMany mentorId rest (generateLicense q.ea_id q.user_id mentorId q.now q.rnds registry).2

/-! ## License validation (src/server.js /validateLicense, both variants) -/

/-- The license projection the /validateLicense response carries (legacy
variant: key, ea_id, active, createdAt). -/
structure LicenseInfo where
  key : String
  ea_id : String
  active : Bool
  createdAt : Nat
  deriving Repr, DecidableEq

/-- The license projection of the multi-mentor /validateLicense response,
which also carries mentor_id. -/
structure LicenseInfoMulti where
  key : String
  ea_id : String
  mentor_id : Option String
  active : Bool
  createdAt : Nat
  deriving Repr, DecidableEq

/-- Body of a /validateLicense response: valid false with a reason, or
valid true with the reason string and the license projection. -/
inductive ValidateResult where
  | invalid (reason : String)
  | valid (reason : String) (license : LicenseInfo)
  deriving Repr, DecidableEq

/-- Multi-mentor variant of ValidateResult. -/
inductive ValidateResultMulti where
  | invalid (reason : String)
  | valid (reason : String) (license : LicenseInfoMulti)
  deriving Repr, DecidableEq

/-- The legacy key regex [A-Z0-9]x3 dash [A-Z0-9]x3 dash [A-Z0-9]x3,
anchored at both ends: exactly eleven characters. -/
def keyFormatLegacy (s : String) : Bool :=
  match s.data with
  | [a, b, c, d, e, f, g, h, i, j, k] =>
    isKeyChar a && isKeyChar b && isKeyChar c && (d == '-') &&
    isKeyChar e && isKeyChar f && isKeyChar g && (h == '-') &&
    isKeyChar i && isKeyChar j && isKeyChar k
  | _ => false

/-- The multi-mentor key regex [0-9]x5 dash [A-Z0-9]x3 dash [A-Z0-9]x3,
anchored at both ends: exactly thirteen characters. -/
def keyFormatMulti (s : String) : Bool :=
  match s.data with
  | [a, b, c, d, e, f, g, h, i, j, k, l, m] =>
    a.isDigit && b.isDigit && c.isDigit && d.isDigit && e.isDigit &&
    (f == '-') && isKeyChar g && isKeyChar h && isKeyChar i &&
    (j == '-') && isKeyChar k && isKeyChar l && isKeyChar m
  | _ => false

/-- The /validateLicense handler of src/server.js (legacy variant): fails
closed with a reason for a missing key, a malformed key, an unknown key or
an inactive key, and answers valid with the license projection otherwise. -/
def validateLicense : Option String → List License → ValidateResult
  | none, _ => .invalid "License key is required"
  | some key, registry =>
    if key == "" then .invalid "License key is required"
    else if !(keyFormatLegacy key) then .invalid "Invalid key format"
    else
      match registry.find? (fun l => l.key == key) with
      | none => .invalid "License key not found"
      | some l =>
        if !l.active then .invalid "License key is inactive"
        else .valid "Valid license"
          { key := l.key, ea_id := l.ea_id, active := l.active, createdAt := l.createdAt }

/-- The /validateLicense handler of the multi-mentor variant: same shape,
with the five-digit mentor prefix regex and the mentor_id in the
projection. -/
def validateLicenseMulti : Option String → List License → ValidateResultMulti
  | none, _ => .invalid "License key is required"
  | some key, registry =>
    if key == "" then .invalid "License key is required"
    else if !(keyFormatMulti key) then .invalid "Invalid key format"
    else
      match registry.find? (fun l => l.key == key) with
      | none => .invalid "License key not found"
      | some l =>
        if !l.active then .invalid "License key is inactive"
        else .valid "Valid license"
          { key := l.key, ea_id := l.ea_id, mentor_id := l.mentor_id,
            active := l.active, createdAt := l.createdAt }

/-! ## License deactivation -/

/-- Outcome of the multi-mentor /deactivateLicense handler. -/
inductive DeactivateResult where
  | unauthorized
  | notFound
  | forbidden
  | success (licenseKey : String)
  deriving Repr, DecidableEq

/-- The multi-mentor /deactivateLicense handler: the caller is an already
validated mentor identity (none models a caller whose mentor id failed
validation), the license must exist and its stored mentor_id must equal
the caller, then its active flag alone is cleared in place. -/
def deactivateLicenseMulti (callerMentorId : Option String) (licenseKey : String)
    (registry : List License) : DeactivateResult × List License :=
  match callerMentorId with
  | none => (.unauthorized, registry)
  | some mid =>
    match registry.find? (fun l => l.key == licenseKey) with
    | none => (.notFound, registry)
    | some l =>
      if l.mentor_id != some mid then (.forbidden, registry)
      else
        (.success licenseKey,
          updateFirst (fun x => x.key == licenseKey)
            (fun x => { x with active := false }) registry)

/-! ## Signal ingestion (src/server.js /receiveSignal) -/

/-- The body fields the /receiveSignal handler destructures. -/
structure SignalReq where
  ea_id : Option String
  type : Option String
  symbol : Option String
  entry_price : Option Int
  sl : Option Int
  tp : Option Int
  lot_size : Option Int
  comment : Option String
  deriving Repr, DecidableEq

/-- Outcome of the /receiveSignal handler. -/
inductive IngestResult where
  | missingFields (required : List String)
  | ok (signal : Signal)
  deriving Repr, DecidableEq

/-- The static required list of the 400 response of /receiveSignal. -/
def requiredFieldNames : List String := ["ea_id", "type", "symbol", "sl", "tp"]

/-- The validation test of /receiveSignal: every one of ea_id, type, symbol,
sl, tp is truthy. -/
def requiredFieldsPresent (req : SignalReq) : Bool :=
  truthyStr req.ea_id && truthyStr req.type && truthyStr req.symbol &&
    truthyInt req.sl && truthyInt req.tp

/-- The signal object /receiveSignal builds: id is Date.now().toString(),
type and symbol are upper-cased, entry_price and lot_size fall back to
null when falsy. -/
def mkSignal (req : SignalReq) (now : Nat) : Signal :=
  { id := toString now
    ea_id := req.ea_id.getD ""
    type := jsToUpper (req.type.getD "")
    symbol := jsToUpper (req.symbol.getD "")
    price := orNullInt req.entry_price
    sl := req.sl.getD 0
    tp := req.tp.getD 0
    lot_size := orNullInt req.lot_size
    comment := orNullStr req.comment
    timestamp := now }

/-- The /receiveSignal handler of src/server.js (after the token check):
reject with the static required list when any required field is falsy,
otherwise unshift the new signal and trim the array to its first 100
entries. -/
def receiveSignal (req : SignalReq) (now : Nat) (signals : List Signal) :
    IngestResult × List Signal :=
  if !(requiredFieldsPresent req) then
    (.missingFields requiredFieldNames, signals)
  else
    let newSignal := mkSignal req now
    let signals1 := newSignal :: signals
    let signals2 := if signals1.length > 100 then signals1.take 100 else signals1
    (.ok newSignal, signals2)

/-- A sequence of /receiveSignal requests (body and clock reading each)
applied to the signals array. -/
def ingestMany : List (SignalReq × Nat) → List Signal → List Signal
  | [], signals => signals
  | (req, now) :: rest, signals => ingestMany rest (receiveSignal req now signals).2

/-- Modelled from the spec: the newest-first sequence of all signals a
request sequence successfully ingests, with no retention cap.  This is
the specification-side value the capped log is compared against; it is
not a function of the source. -/
def allIngested : List (SignalReq × Nat) → List Signal → List Signal
  | [], acc => acc
  | (req, now) :: rest, acc =>
    allIngested rest (if requiredFieldsPresent req then mkSignal req now :: acc else acc)

/-- The GET /signals handler: the whole stored array. -/
def getSignals (signals : List Signal) : List Signal := signals

/-- The GET /signals/:ea_id handler: the stored array filtered by ea_id. -/
def getSignalsByEA (ea_id : String) (signals : List Signal) : List Signal :=
  signals.filter (fun s => s.ea_id == ea_id)

/-! ## Subscriber fan-out (src/server.js wss connection handler, broadcastSignal) -/

/-- A message sent over the websocket: the initial snapshot on connect, or
one live signal push. -/
inductive WsMessage where
  | initial (signals : List Signal)
  | signal (data : Signal)
  deriving Repr, DecidableEq

/-- A subscriber connection: its readyState (1 is OPEN) and the messages
delivered to it. -/
structure Client where
  readyState : Nat
  inbox : List WsMessage
  deriving Repr, DecidableEq

/-- The message the connection handler sends to a newly connected client:
type initial with signals.slice(0, 20). -/
def connectMessage (signals : List Signal) : WsMessage :=
  .initial (signals.take 20)

/-- broadcastSignal: deliver the one new signal to every client whose
readyState is 1, independently; other clients are untouched. -/
def broadcastSignal (signal : Signal) (clients : List Client) : List Client :=
  clients.map fun c =>
    if c.readyState == 1 then { c with inbox := c.inbox ++ [WsMessage.signal signal] }
    else c

/-- The /receiveSignal handler followed by the broadcast it performs on
success. -/
def receiveSignalAndBroadcast (req : SignalReq) (now : Nat)
    (signals : List Signal) (clients : List Client) :
    IngestResult × List Signal × List Client :=
  match receiveSignal req now signals with
  | (IngestResult.ok s, signals2) => (.ok s, signals2, broadcastSignal s clients)
  | (e, signals2) => (e, signals2, clients)

/-! ## Liveness evaluation (src/server.js /student/status/:license_key) -/

/-- The legacy derived vps_connected boolean: a heartbeat has been stored,
it is less than 60 seconds old, and it reported mt5_connected. -/
def vpsConnected (vps : Option VpsStatus) (now : Nat) : Bool :=
  match vps with
  | none => false
  | some v => decide ((now - v.last_heartbeat) / 1000 < 60) && v.mt5_connected

/-- The vps_connected field of the MetaApi-variant status response: the
same staleness test, then OR-ed with whether the student has a
metaapi_account_id at all. -/
def vpsConnectedMeta (student : Student) (now : Nat) : Bool :=
  (match student.vps_status with
   | none => false
   | some v => decide ((now - v.last_heartbeat) / 1000 < 60) && v.mt5_connected)
  || student.metaapi_account_id.isSome

/-! ## Student registration and lifecycle (src/server.js /student/...) -/

/-- The body fields the /student/register handler destructures (legacy
variant). -/
structure StudentRegisterReq where
  license_key : Option String
  account_number : Option String
  password : Option String
  server : Option String
  broker : Option String
  lot_multiplier : Option Int
  deriving Repr, DecidableEq

/-- Outcome of the /student/register handler. -/
inductive RegisterResult where
  | missingFields (required : List String)
  | invalidLicense
  | conflict
  | success (license_key : String) (status : String)
  deriving Repr, DecidableEq

/-- The /student/register handler of src/server.js (legacy variant):
require the four fields, require an active license with that key, reject
with 409 when a student already holds the key, otherwise push the new
student with status pending. -/
def registerStudent (req : StudentRegisterReq) (now : Nat)
    (licenseKeys : List License) (students : List Student) :
    RegisterResult × List Student :=
  if !(truthyStr req.license_key && truthyStr req.account_number &&
        truthyStr req.password && truthyStr req.server) then
    (.missingFields ["license_key", "account_number", "password", "server"], students)
  else
    let key := req.license_key.getD ""
    match licenseKeys.find? (fun l => l.key == key && l.active) with
    | none => (.invalidLicense, students)
    | some license =>
      match students.find? (fun s => s.license_key == key) with
      | some _ => (.conflict, students)
      | none =>
        let student : Student :=
          { license_key := key
            account_number := req.account_number.getD ""
            password := req.password
            server := req.server.getD ""
            broker := (orNullStr req.broker).getD "Unknown"
            ea_id := license.ea_id
            mentor_id := none
            lot_multiplier := some ((orNullInt req.lot_multiplier).getD 1)
            metaapi_account_id := none
            status := "pending"
            registered_at := now
            started_at := none
            stopped_at := none
            vps_status := none }
        (.success key "pending", students ++ [student])

/-- The whole in-memory state of the legacy server. -/
structure ServerState where
  licenseKeys : List License
  signals : List Signal
  students : List Student
  deriving Repr, DecidableEq

/-- Outcome of the legacy /deactivateLicense handler. -/
inductive DeactivateLegacyResult where
  | notFound
  | success
  deriving Repr, DecidableEq

/-- The legacy /deactivateLicense handler (after the token check): locate
the license by key; when found, clear its active flag in place.  The
handler reads and writes nothing but the licenseKeys array. -/
def deactivateLicenseLegacy (licenseKey : String) (st : ServerState) :
    DeactivateLegacyResult × ServerState :=
  match st.licenseKeys.find? (fun l => l.key == licenseKey) with
  | none => (.notFound, st)
  | some _ =>
    (.success,
      { st with
        licenseKeys := updateFirst (fun l => l.key == licenseKey)
          (fun l => { l with active := false }) st.licenseKeys })

/-- Outcome of the /student/start handler. -/
inductive StartResult where
  | missingKey
  | notFound
  | started
  deriving Repr, DecidableEq

/-- The /student/start handler: require license_key, locate the student,
set its status to active and stamp started_at.  No license check. -/
def studentStart (license_key : Option String) (now : Nat) (st : ServerState) :
    StartResult × ServerState :=
  if !(truthyStr license_key) then (.missingKey, st)
  else
    let key := license_key.getD ""
    match st.students.find? (fun s => s.license_key == key) with
    | none => (.notFound, st)
    | some _ =>
      (.started,
        { st with
          students := updateFirst (fun s => s.license_key == key)
            (fun s => { s with status := "active", started_at := some now }) st.students })

/-- The GET /vps/students handler (after the api key check): the students
whose status is active. -/
def vpsActiveStudents (st : ServerState) : List Student :=
  st.students.filter (fun s => s.status == "active")

/-! ## Statement vocabulary and sample data -/

/-- Shape of an issued license key: the mentor prefix, a dash, a
three-character segment over the generation charset, a dash, another such
segment. -/
def licenseKeyShape (mentorId : String) (key : String) : Prop :=
  ∃ s1 s2, key = mentorId ++ "-" ++ s1 ++ "-" ++ s2 ∧
    s1.length = 3 ∧ s2.length = 3 ∧
    (∀ c ∈ s1.data, isKeyChar c = true) ∧ (∀ c ∈ s2.data, isKeyChar c = true)

/-- A /receiveSignal body with every required field present. -/
def sampleSignalReq : SignalReq :=
  { ea_id := some "GOLD-EA", type := some "buy", symbol := some "xauusd",
    entry_price := some 1950, sl := some 1940, tp := some 1970,
    lot_size := some 1, comment := some "tp run" }

/-- A /receiveSignal body whose only missing required field is symbol. -/
def reqMissingSymbol : SignalReq :=
  { sampleSignalReq with symbol := none }

/-- One stored signal, for concrete log states. -/
def sampleSignal : Signal := mkSignal sampleSignalReq 1699999000000

/-- A connected subscriber in the OPEN state with nothing delivered yet. -/
def openClient : Client := { readyState := 1, inbox := [] }

/-- License L1, issued by mentor 10001 for EA1 (multi-mentor key format). -/
def licenseL1 : License :=
  { key := "10001-ABC-DEF", ea_id := "EA1", user_id := none,
    mentor_id := some "10001", active := true, createdAt := 0 }

/-- An active legacy license for the student scenarios. -/
def licenseEDF : License :=
  { key := "EDF-AAA-BBB", ea_id := "EA1", user_id := none,
    mentor_id := none, active := true, createdAt := 0 }

/-- A MetaApi-variant student that has a metaapi account id but has never
stored a heartbeat. -/
def studentNoHeartbeat : Student :=
  { license_key := "10001-ABC-DEF", account_number := "123", password := none,
    server := "Broker-Demo", broker := "Unknown", ea_id := "EA1",
    mentor_id := some "10001", lot_multiplier := none,
    metaapi_account_id := some "ma-account-1", status := "active",
    registered_at := 0, started_at := none, stopped_at := none,
    vps_status := none }

/-- A valid /student/register body for the legacy license. -/
def sampleRegisterReq : StudentRegisterReq :=
  { license_key := some "EDF-AAA-BBB", account_number := some "123456",
    password := some "pw", server := some "Broker-Demo",
    broker := some "BrokerCo", lot_multiplier := some 2 }

/-- The student record sampleRegisterReq creates. -/
def sampleStudent : Student :=
  { license_key := "EDF-AAA-BBB", account_number := "123456",
    password := some "pw", server := "Broker-Demo", broker := "BrokerCo",
    ea_id := "EA1", mentor_id := none, lot_multiplier := some 2,
    metaapi_account_id := none, status := "pending", registered_at := 77,
    started_at := none, stopped_at := none, vps_status := none }

/-- A legacy server state holding one active license and one registered
student under it. -/
def sampleState : ServerState :=
  { licenseKeys := [licenseEDF], signals := [], students := [sampleStudent] }

/-! ## Helper lemmas -/

theorem truthyStr_iff (o : Option String) :
    truthyStr o = true ↔ ∃ s, o = some s ∧ s ≠ "" := by
  cases o with
  | none => simp [truthyStr]
  | some s => simp [truthyStr]

theorem charAt36_mem (n : Nat) : charAt36 n ∈ licenseChars := by
  have hlen : licenseChars.length = 36 := rfl
  have h : n % 36 < licenseChars.length := by
    rw [hlen]; exact Nat.mod_lt n (by norm_num)
  rw [charAt36, List.getD_eq_getElem licenseChars 'A' h]
  exact List.getElem_mem h

theorem isKeyChar_charAt36 (n : Nat) : isKeyChar (charAt36 n) = true :=
  decide_eq_true (charAt36_mem n)

theorem find?_append_of_none {p : α → Bool} {l1 l2 : List α}
    (h : l1.find? p = none) : (l1 ++ l2).find? p = l2.find? p := by
  rw [List.find?_append, h, Option.none_or]

/-- Locating an element with find? and rewriting it with updateFirst act on
the same position: the list splits at the first match. -/
theorem find?_updateFirst_decomp {p : α → Bool} (f : α → α) {l : List α} {x : α}
    (h : l.find? p = some x) :
    ∃ pre post, l = pre ++ x :: post ∧ (∀ y ∈ pre, p y = false) ∧ p x = true ∧
      updateFirst p f l = pre ++ f x :: post := by
  induction l with
  | nil => simp [List.find?] at h
  | cons a as ih =>
    by_cases ha : p a
    · rw [List.find?_cons_of_pos as ha] at h
      obtain rfl : a = x := by injection h
      exact ⟨[], as, rfl, by simp, ha, by simp [updateFirst, ha]⟩
    · rw [List.find?_cons_of_neg as ha] at h
      obtain ⟨pre, post, hsplit, hpre, hx, hupd⟩ := ih h
      refine ⟨a :: pre, post, by simp [hsplit], ?_, hx, ?_⟩
      · intro y hy
        rcases List.mem_cons.mp hy with rfl | hy
        · exact Bool.of_not_eq_true ha
        · exact hpre y hy
      · simp [updateFirst, ha, hupd]

theorem freshKeyLoop_spec {mentorId : String} {registry : List License}
    {rnds : List Rand6} {k : String} (h : freshKeyLoop mentorId registry rnds = some k) :
    (∀ l ∈ registry, l.key ≠ k) ∧ ∃ r ∈ rnds, k = candidateKey mentorId r := by
  induction rnds with
  | nil => simp [freshKeyLoop] at h
  | cons r rest ih =>
    rw [freshKeyLoop] at h
    by_cases hc : registry.any (fun l => l.key == candidateKey mentorId r)
    · rw [if_pos hc] at h
      obtain ⟨h1, r2, hr2, hk⟩ := ih h
      exact ⟨h1, r2, List.mem_cons_of_mem r hr2, hk⟩
    · rw [if_neg hc] at h
      obtain rfl : candidateKey mentorId r = k := by injection h
      refine ⟨?_, r, List.mem_cons_self r rest, rfl⟩
      intro l hl heq
      exact hc (List.any_eq_true.mpr ⟨l, hl, by simp [heq]⟩)

theorem freshKeyLoop_eq_find? (mentorId : String) (registry : List License)
    (rnds : List Rand6) :
    freshKeyLoop mentorId registry rnds =
      (rnds.map (candidateKey mentorId)).find?
        (fun k => !(registry.any (fun l => l.key == k))) := by
  induction rnds with
  | nil => simp [freshKeyLoop]
  | cons r rest ih =>
    rw [freshKeyLoop, List.map_cons]
    by_cases hc : registry.any (fun l => l.key == candidateKey mentorId r)
    · rw [if_pos hc, List.find?_cons_of_neg _ (by simp [hc]), ih]
    · rw [if_neg hc, List.find?_cons_of_pos _ (by simp [hc])]

theorem candidateKey_shape (mentorId : String) (r : Rand6) :
    licenseKeyShape mentorId (candidateKey mentorId r) := by
  refine ⟨String.mk [charAt36 r.r0, charAt36 r.r2, charAt36 r.r4],
    String.mk [charAt36 r.r1, charAt36 r.r3, charAt36 r.r5], rfl, rfl, rfl, ?_, ?_⟩ <;>
  · intro c hc
    simp only [String.mk, List.mem_cons, List.not_mem_nil, or_false] at hc
    rcases hc with rfl | rfl | rfl <;> exact isKeyChar_charAt36 _

/-- The unshift-then-trim step always leaves exactly the first 100 entries. -/
theorem trim_eq_take (s : Signal) (log : List Signal) :
    (if (s :: log).length > 100 then (s :: log).take 100 else s :: log) =
      (s :: log).take 100 := by
  by_cases h : (s :: log).length > 100
  · rw [if_pos h]
  · rw [if_neg h]
    exact (List.take_of_length_le (Nat.le_of_not_lt h)).symm

/-- The stored signals array is the 100 newest entries of the uncapped
ingestion history. -/
theorem ingestMany_take (reqs : List (SignalReq × Nat)) (log : List Signal) :
    ingestMany reqs (log.take 100) = (allIngested reqs log).take 100 := by
  induction reqs generalizing log with
  | nil => simp [ingestMany, allIngested]
  | cons p rest ih =>
    obtain ⟨req, now⟩ := p
    by_cases h : requiredFieldsPresent req
    · have hstep : (receiveSignal req now (log.take 100)).2 =
          (mkSignal req now :: log).take 100 := by
        rw [receiveSignal]
        simp only [h, Bool.not_true, Bool.false_eq_true, if_false]
        rw [trim_eq_take]
        rw [List.take_succ_cons, List.take_succ_cons, List.take_take]
        norm_num
      rw [ingestMany, hstep, allIngested, if_pos h]
      exact ih (mkSignal req now :: log)
    · have hstep : (receiveSignal req now (log.take 100)).2 = log.take 100 := by
        rw [receiveSignal]
        simp [h]
      rw [ingestMany, hstep, allIngested, if_neg h]
      exact ih log

/-- C1: the signal log is bounded.  After any sequence of ingestions from
the empty log, the stored array equals the 100 most recently ingested
signals, newest first (the take of the uncapped newest-first history); in
particular it never holds more than 100 entries, and both read endpoints
(full listing and per-EA listing) return only signals among those 100, so
older signals are unreachable through any read. -/
theorem C1_signal_log_bounded (reqs : List (SignalReq × Nat)) :
    ingestMany reqs [] = (allIngested reqs []).take 100 ∧
    (ingestMany reqs []).length ≤ 100 ∧
    (∀ s ∈ getSignals (ingestMany reqs []), s ∈ (allIngested reqs []).take 100) ∧
    (∀ ea s, s ∈ getSignalsByEA ea (ingestMany reqs []) →
      s ∈ (allIngested reqs []).take 100) := by
  have h : ingestMany reqs [] = (allIngested reqs []).take 100 := by
    have := ingestMany_take reqs []
    rwa [List.take_nil] at this
  refine ⟨h, ?_, ?_, ?_⟩
  · rw [h, List.length_take]
    exact min_le_left _ _
  · intro s hs
    rw [getSignals, h] at hs
    exact hs
  · intro ea s hs
    rw [getSignalsByEA, h] at hs
    exact (List.mem_filter.mp hs).1

/-- C2 counterexample: a request whose only missing required field is
symbol is rejected with the full static required list, which also names
ea_id, type, sl and tp, none of which are missing; the surfaced list is
not the list of missing fields. -/
theorem C2_counterexample_full_list :
    receiveSignal reqMissingSymbol 1700000000000 [] =
      (.missingFields ["ea_id", "type", "symbol", "sl", "tp"], []) ∧
    reqMissingSymbol.symbol = none ∧
    reqMissingSymbol.ea_id = some "GOLD-EA" ∧
    truthyStr reqMissingSymbol.ea_id = true ∧
    ¬(["ea_id", "type", "symbol", "sl", "tp"] = ["symbol"]) := by
  refine ⟨by decide, rfl, rfl, by decide, by decide⟩

/-- C2 as amended: whenever any required field of a /receiveSignal request
is missing, the handler fails with the fixed full list of the five
required field names (independent of which fields are missing) and the
signal log is unchanged, so no partial signal is appended. -/
theorem C2_missing_fields_fixed_list (req : SignalReq) (now : Nat)
    (signals : List Signal) (h : requiredFieldsPresent req = false) :
    receiveSignal req now signals = (.missingFields requiredFieldNames, signals) ∧
    requiredFieldNames = ["ea_id", "type", "symbol", "sl", "tp"] := by
  constructor
  · rw [receiveSignal, h]
    simp
  · rfl

theorem C2_missing_fields_fixed_list_witness :
    receiveSignal reqMissingSymbol 1700000000000 [] =
      (.missingFields requiredFieldNames, []) ∧
    requiredFieldNames = ["ea_id", "type", "symbol", "sl", "tp"] :=
  C2_missing_fields_fixed_list reqMissingSymbol 1700000000000 [] (by decide)

/-- C3 counterexample: in the MetaApi status variant, a student with a
metaapi account id and no stored heartbeat is reported connected, so the
response field is not the claimed pure function of last_heartbeat,
last-reported flag and the clock (it also reads metaapi_account_id, and is
true with no heartbeat present). -/
theorem C3_counterexample_metaapi :
    vpsConnectedMeta studentNoHeartbeat 1700000000000 = true ∧
    studentNoHeartbeat.vps_status = none ∧
    vpsConnected studentNoHeartbeat.vps_status 1700000000000 = false := by
  refine ⟨by decide, rfl, by decide⟩

/-- C3 as amended: the legacy status endpoint derives connected as a pure
function of the stored heartbeat state and the clock - true exactly when a
heartbeat is stored, it is less than 60000 ms old and it reported the
terminal connected; the MetaApi variant reports that same value OR-ed with
whether the student has a metaapi account id. -/
theorem C3_connected_characterization (vps : Option VpsStatus)
    (student : Student) (now : Nat) :
    (vpsConnected vps now = true ↔
      ∃ v, vps = some v ∧ now - v.last_heartbeat < 60000 ∧ v.mt5_connected = true) ∧
    vpsConnectedMeta student now =
      (vpsConnected student.vps_status now || student.metaapi_account_id.isSome) := by
  constructor
  · cases vps with
    | none => simp [vpsConnected]
    | some v =>
      have hdiv : ((now - v.last_heartbeat) / 1000 < 60) ↔
          (now - v.last_heartbeat < 60000) := by
        rw [Nat.div_lt_iff_lt_mul (by norm_num)]
      simp [vpsConnected, Bool.and_eq_true, decide_eq_true_eq, hdiv]
  · rfl

/-- C6: signal ids are derived from Date.now(), so two signals accepted in
the same millisecond receive the same id string - ids are neither distinct
nor strictly increasing between the two ingestions. -/
theorem C6_same_millisecond_id_reused :
    (receiveSignal sampleSignalReq 1700000000000 []).1 =
      .ok (mkSignal sampleSignalReq 1700000000000) ∧
    (receiveSignal sampleSignalReq 1700000000000
        (receiveSignal sampleSignalReq 1700000000000 []).2).1 =
      .ok (mkSignal sampleSignalReq 1700000000000) ∧
    (mkSignal sampleSignalReq 1700000000000).id = "1700000000000" := by
  refine ⟨by decide, by decide, by decide⟩

/-- C8: multi-tenant deactivation scenario.  With license L1 issued by
mentor 10001, a deactivation by mentor 10002 answers Forbidden and leaves
the registry (and the active flag of L1) untouched; the deactivation by
mentor 10001 succeeds and clears the flag, after which validation of L1
fails with the inactive reason. -/
theorem C8_multi_tenant_deactivation :
    deactivateLicenseMulti (some "10002") "10001-ABC-DEF" [licenseL1] =
      (.forbidden, [licenseL1]) ∧
    licenseL1.active = true ∧
    deactivateLicenseMulti (some "10001") "10001-ABC-DEF" [licenseL1] =
      (.success "10001-ABC-DEF", [{ licenseL1 with active := false }]) ∧
    validateLicenseMulti (some "10001-ABC-DEF") [{ licenseL1 with active := false }] =
      .invalid "License key is inactive" := by
  refine ⟨by decide, rfl, by decide, by decide⟩

/-- C4: /validateLicense fails closed.  For every input it answers one of
the defined results (it never raises); each failure case - missing or
empty key, malformed format, unknown key, inactive key - gets its own
reason string, the four reasons are pairwise distinct, and the valid
answer with the license projection arrives exactly when the key is
well-formed, present and active. -/
theorem C4_validateLicense_fails_closed (licenseKey : Option String)
    (registry : List License) :
    ((∃ r, validateLicense licenseKey registry = .invalid r) ∨
      (∃ info, validateLicense licenseKey registry = .valid "Valid license" info)) ∧
    (truthyStr licenseKey = false →
      validateLicense licenseKey registry = .invalid "License key is required") ∧
    (∀ key, licenseKey = some key → key ≠ "" → keyFormatLegacy key = false →
      validateLicense licenseKey registry = .invalid "Invalid key format") ∧
    (∀ key, licenseKey = some key → keyFormatLegacy key = true →
      registry.find? (fun l => l.key == key) = none →
      validateLicense licenseKey registry = .invalid "License key not found") ∧
    (∀ key l, licenseKey = some key → keyFormatLegacy key = true →
      registry.find? (fun x => x.key == key) = some l → l.active = false →
      validateLicense licenseKey registry = .invalid "License key is inactive") ∧
    (∀ key l, licenseKey = some key → keyFormatLegacy key = true →
      registry.find? (fun x => x.key == key) = some l → l.active = true →
      validateLicense licenseKey registry = .valid "Valid license"
        { key := l.key, ea_id := l.ea_id, active := l.active, createdAt := l.createdAt }) ∧
    (∀ reason info, validateLicense licenseKey registry = .valid reason info →
      reason = "Valid license" ∧
      ∃ key l, licenseKey = some key ∧ keyFormatLegacy key = true ∧
        registry.find? (fun x => x.key == key) = some l ∧ l.active = true ∧
        info = { key := l.key, ea_id := l.ea_id, active := l.active,
                 createdAt := l.createdAt }) ∧
    (["License key is required", "Invalid key format", "License key not found",
      "License key is inactive"].Nodup) := by
  have hfmt_ne : ∀ key : String, keyFormatLegacy key = true → key ≠ "" := by
    intro key h he
    subst he
    simp [keyFormatLegacy] at h
  refine ⟨?_, ?_, ?_, ?_, ?_, ?_, ?_, by decide⟩
  · cases licenseKey with
    | none => exact Or.inl ⟨_, rfl⟩
    | some key =>
      rw [validateLicense]
      by_cases h0 : key == ""
      · rw [if_pos h0]; exact Or.inl ⟨_, rfl⟩
      · rw [if_neg h0]
        by_cases h1 : keyFormatLegacy key
        · simp only [h1, Bool.not_true, Bool.false_eq_true, if_false]
          cases hf : registry.find? (fun l => l.key == key) with
          | none => exact Or.inl ⟨_, rfl⟩
          | some l =>
            by_cases h2 : l.active
            · simp only [h2, Bool.not_true, Bool.false_eq_true, if_false]
              exact Or.inr ⟨_, rfl⟩
            · simp only [Bool.not_eq_true] at h2
              simp only [h2, Bool.not_false, if_true]
              exact Or.inl ⟨_, rfl⟩
        · simp only [Bool.not_eq_true] at h1
          simp only [h1, Bool.not_false, if_true]
          exact Or.inl ⟨_, rfl⟩
  · intro h
    cases licenseKey with
    | none => rfl
    | some key =>
      have h2 : key == "" := by
        rw [truthyStr] at h
        simpa using h
      rw [validateLicense, if_pos h2]
  · intro key hk hne hfmt
    subst hk
    rw [validateLicense, if_neg (by simpa using hne)]
    simp [hfmt]
  · intro key hk hfmt hfind
    subst hk
    rw [validateLicense, if_neg (by simpa using hfmt_ne key hfmt), hfmt]
    simp only [Bool.not_true, Bool.false_eq_true, if_false]
    rw [hfind]
  · intro key l hk hfmt hfind hact
    subst hk
    rw [validateLicense, if_neg (by simpa using hfmt_ne key hfmt), hfmt]
    simp only [Bool.not_true, Bool.false_eq_true, if_false]
    rw [hfind]
    simp [hact]
  · intro key l hk hfmt hfind hact
    subst hk
    rw [validateLicense, if_neg (by simpa using hfmt_ne key hfmt), hfmt]
    simp only [Bool.not_true, Bool.false_eq_true, if_false]
    rw [hfind]
    simp [hact]
  · intro reason info h
    cases licenseKey with
    | none => simp [validateLicense] at h
    | some key =>
      rw [validateLicense] at h
      by_cases h0 : key == ""
      · rw [if_pos h0] at h; simp at h
      · rw [if_neg h0] at h
        by_cases h1 : keyFormatLegacy key
        · simp only [h1, Bool.not_true, Bool.false_eq_true, if_false] at h
          cases hf : registry.find? (fun l => l.key == key) with
          | none => rw [hf] at h; simp at h
          | some l =>
            rw [hf] at h
            by_cases h2 : l.active
            · simp only [h2, Bool.not_true, Bool.false_eq_true, if_false] at h
              injection h with hr hi
              refine ⟨hr.symm, key, l, rfl, h1, hf, h2, ?_⟩
              rw [h2]
              exact hi.symm
            · simp only [Bool.not_eq_true] at h2
              simp only [h2, Bool.not_false, if_true] at h
              simp at h
        · simp only [Bool.not_eq_true] at h1
          simp only [h1, Bool.not_false, if_true] at h
          simp at h

/-- Key uniqueness and key shape are preserved by every /generateLicense
step, whatever its outcome. -/
theorem issueMany_invariant (mentorId : String) (reqs : List GenReq)
    (registry : List License)
    (h1 : (registry.map License.key).Nodup)
    (h2 : ∀ l ∈ registry, licenseKeyShape mentorId l.key) :
    ((issueMany mentorId reqs registry).map License.key).Nodup ∧
    ∀ l ∈ issueMany mentorId reqs registry, licenseKeyShape mentorId l.key := by
  induction reqs generalizing registry with
  | nil => exact ⟨h1, h2⟩
  | cons q rest ih =>
    rw [issueMany, generateLicense]
    by_cases hea : truthyStr q.ea_id
    · simp only [hea, Bool.not_true, Bool.false_eq_true, if_false]
      cases hk : freshKeyLoop mentorId registry q.rnds with
      | none => exact ih registry h1 h2
      | some k =>
        obtain ⟨hfresh, r, _, hcand⟩ := freshKeyLoop_spec hk
        apply ih
        · rw [List.map_append, List.nodup_append]
          refine ⟨h1, by simp, ?_⟩
          intro a ha hb
          simp only [List.map_cons, List.map_nil, List.mem_singleton] at hb
          obtain ⟨l, hl, hla⟩ := List.mem_map.mp ha
          exact hfresh l hl (by rw [hla, hb])
        · intro l hl
          rcases List.mem_append.mp hl with hl | hl
          · exact h2 l hl
          · simp only [List.mem_singleton] at hl
            subst hl
            rw [hcand]
            exact candidateKey_shape mentorId r
    · simp only [hea, Bool.not_false, if_true]
      exact ih registry h1 h2

/-- C5: every license key the registry can come to hold through a sequence
of /generateLicense requests has the mandated shape (mentor prefix and two
three-character charset segments, dash-delimited) and the stored keys are
pairwise distinct; moreover the generation loop returns exactly the first
candidate of its random stream that does not collide with a stored key,
i.e. it retries generation until a non-colliding key is produced. -/
theorem C5_issued_keys_unique_and_formatted (mentorId : String)
    (reqs : List GenReq) :
    ((issueMany mentorId reqs []).map License.key).Nodup ∧
    (∀ l ∈ issueMany mentorId reqs [], licenseKeyShape mentorId l.key) ∧
    (∀ registry rnds, freshKeyLoop mentorId registry rnds =
      (rnds.map (candidateKey mentorId)).find?
        (fun k => !(registry.any (fun l => l.key == k)))) := by
  obtain ⟨ha, hb⟩ := issueMany_invariant mentorId reqs [] (by simp) (by simp)
  exact ⟨ha, hb, fun registry rnds => freshKeyLoop_eq_find? mentorId registry rnds⟩

/-- C7: a subscriber connecting while the log holds 50 signals receives
one snapshot message holding exactly the 20 most recent (the snapshot is
an initial segment of the newest-first log of length 20); a subscriber
already in the OPEN state when the next signal is accepted has exactly
that one signal pushed to it, with no reconnect - its existing connection
record merely gains the one push message. -/
theorem C7_snapshot_and_live_push (log : List Signal) (c : Client)
    (req : SignalReq) (now : Nat) (h50 : log.length = 50)
    (hopen : c.readyState = 1) (hreq : requiredFieldsPresent req = true) :
    connectMessage log = WsMessage.initial (log.take 20) ∧
    (log.take 20).length = 20 ∧
    log.take 20 ++ log.drop 20 = log ∧
    receiveSignalAndBroadcast req now log [c] =
      (.ok (mkSignal req now), mkSignal req now :: log,
        [{ c with inbox := c.inbox ++ [WsMessage.signal (mkSignal req now)] }]) := by
  refine ⟨rfl, ?_, List.take_append_drop 20 log, ?_⟩
  · rw [List.length_take, h50]
    norm_num
  · have hrs : receiveSignal req now log = (.ok (mkSignal req now), mkSignal req now :: log) := by
      rw [receiveSignal]
      simp only [hreq, Bool.not_true, Bool.false_eq_true, if_false]
      have hlen : ¬((mkSignal req now :: log).length > 100) := by
        simp [h50]
      rw [if_neg hlen]
    rw [receiveSignalAndBroadcast, hrs]
    simp [broadcastSignal, hopen]

theorem C7_snapshot_and_live_push_witness :
    connectMessage (List.replicate 50 sampleSignal) =
      WsMessage.initial ((List.replicate 50 sampleSignal).take 20) ∧
    ((List.replicate 50 sampleSignal).take 20).length = 20 ∧
    (List.replicate 50 sampleSignal).take 20 ++ (List.replicate 50 sampleSignal).drop 20 =
      List.replicate 50 sampleSignal ∧
    receiveSignalAndBroadcast sampleSignalReq 1700000000000
        (List.replicate 50 sampleSignal) [openClient] =
      (.ok (mkSignal sampleSignalReq 1700000000000),
        mkSignal sampleSignalReq 1700000000000 :: List.replicate 50 sampleSignal,
        [{ openClient with
            inbox := openClient.inbox ++
              [WsMessage.signal (mkSignal sampleSignalReq 1700000000000)] }]) :=
  C7_snapshot_and_live_push (List.replicate 50 sampleSignal) openClient
    sampleSignalReq 1700000000000 (List.length_replicate 50 sampleSignal) rfl (by decide)

/-- C9: one registration per license.  With an active license whose key no
registered student holds, the first /student/register call succeeds and
appends one student record with status pending; a second call for the
same key (with any well-formed body) answers Conflict and appends
nothing, and the students array then holds exactly one record for that
key. -/
theorem C9_one_registration_per_license
    (req req2 : StudentRegisterReq) (now now2 : Nat) (key : String)
    (licenseKeys : List License) (students : List Student) (license : License)
    (hfields : (truthyStr req.license_key && truthyStr req.account_number &&
      truthyStr req.password && truthyStr req.server) = true)
    (hfields2 : (truthyStr req2.license_key && truthyStr req2.account_number &&
      truthyStr req2.password && truthyStr req2.server) = true)
    (hkey : req.license_key = some key)
    (hkey2 : req2.license_key = some key)
    (hlic : licenseKeys.find? (fun l => l.key == key && l.active) = some license)
    (hnone : students.find? (fun s => s.license_key == key) = none) :
    ∃ student,
      registerStudent req now licenseKeys students =
        (.success key "pending", students ++ [student]) ∧
      student.license_key = key ∧ student.status = "pending" ∧
      registerStudent req2 now2 licenseKeys (students ++ [student]) =
        (.conflict, students ++ [student]) ∧
      (students ++ [student]).countP (fun s => s.license_key == key) = 1 := by
  refine ⟨{ license_key := key
            account_number := req.account_number.getD ""
            password := req.password
            server := req.server.getD ""
            broker := (orNullStr req.broker).getD "Unknown"
            ea_id := license.ea_id
            mentor_id := none
            lot_multiplier := some ((orNullInt req.lot_multiplier).getD 1)
            metaapi_account_id := none
            status := "pending"
            registered_at := now
            started_at := none
            stopped_at := none
            vps_status := none }, ?_, rfl, rfl, ?_, ?_⟩
  · rw [registerStudent, hfields]
    simp only [Bool.not_true, Bool.false_eq_true, if_false, hkey, Option.getD_some]
    rw [hlic, hnone]
  · rw [registerStudent, hfields2]
    simp only [Bool.not_true, Bool.false_eq_true, if_false, hkey2, Option.getD_some]
    rw [hlic, find?_append_of_none hnone]
    simp [List.find?_cons_of_pos]
  · rw [List.countP_append]
    rw [List.countP_eq_zero.mpr (by simpa using List.find?_eq_none.mp hnone)]
    simp [List.countP_cons]

theorem C9_one_registration_per_license_witness :
    ∃ student : Student,
      registerStudent sampleRegisterReq 77 [licenseEDF] [] =
        (.success "EDF-AAA-BBB" "pending", ([] : List Student) ++ [student]) ∧
      student.license_key = "EDF-AAA-BBB" ∧ student.status = "pending" ∧
      registerStudent sampleRegisterReq 99 [licenseEDF] (([] : List Student) ++ [student]) =
        (.conflict, ([] : List Student) ++ [student]) ∧
      (([] : List Student) ++ [student]).countP (fun s => s.license_key == "EDF-AAA-BBB") = 1 :=
  C9_one_registration_per_license sampleRegisterReq sampleRegisterReq 77 99
    "EDF-AAA-BBB" [licenseEDF] [] licenseEDF (by decide) (by decide) rfl rfl
    (by decide) rfl

/-- When a student with the key exists, /student/start rewrites exactly the
first matching record to status active. -/
theorem studentStart_found (key : String) (st : ServerState) (s0 : Student)
    (now : Nat) (hne : key ≠ "")
    (hsf : st.students.find? (fun s => s.license_key == key) = some s0) :
    studentStart (some key) now st =
      (.started,
        { st with
            students :=
              updateFirst (fun s => s.license_key == key)
                (fun s => { s with status := "active", started_at := some now })
                st.students }) := by
  rw [studentStart]
  have ht : truthyStr (some key) = true := by
    rw [truthyStr]
    simpa using hne
  rw [ht]
  simp only [Bool.not_true, Bool.false_eq_true, if_false, Option.getD_some]
  rw [hsf]

/-- C10: frame effect of legacy /deactivateLicense.  A successful
deactivation leaves the students and signals arrays untouched and rewrites
only the first license holding the key, only in its active flag; a student
already registered under that key can still be started afterwards
(/student/start succeeds and sets its status to active) and the started
record appears in the /vps/students listing - revocation does not
propagate to existing sessions. -/
theorem C10_deactivate_frame_effect (key : String) (st st1 : ServerState)
    (now : Nat) (stu : Student)
    (hdeact : deactivateLicenseLegacy key st = (.success, st1))
    (hstu : stu ∈ st.students) (hkey : stu.license_key = key) (hne : key ≠ "") :
    st1.students = st.students ∧
    st1.signals = st.signals ∧
    (∃ pre l post, st.licenseKeys = pre ++ l :: post ∧ l.key = key ∧
      (∀ x ∈ pre, (x.key == key) = false) ∧
      st1.licenseKeys = pre ++ { l with active := false } :: post) ∧
    (∃ st2 stu2, studentStart (some key) now st1 = (.started, st2) ∧
      stu2.license_key = key ∧ stu2.status = "active" ∧
      stu2 ∈ vpsActiveStudents st2) := by
  rw [deactivateLicenseLegacy] at hdeact
  cases hfind : st.licenseKeys.find? (fun l => l.key == key) with
  | none =>
    rw [hfind] at hdeact
    exact absurd (congrArg Prod.fst hdeact) (by simp)
  | some l =>
    rw [hfind] at hdeact
    have hst1 : st1 = { st with
        licenseKeys := updateFirst (fun x => x.key == key)
          (fun x => { x with active := false }) st.licenseKeys } := by
      have := congrArg Prod.snd hdeact
      exact this.symm
    subst hst1
    refine ⟨rfl, rfl, ?_, ?_⟩
    · obtain ⟨pre, post, hsplit, hpre, hx, hupd⟩ :=
        find?_updateFirst_decomp (fun x => { x with active := false }) hfind
      exact ⟨pre, l, post, hsplit, by simpa using hx, hpre, hupd⟩
    · have hfound : st.students.find? (fun s => s.license_key == key) ≠ none := by
        rw [Ne, List.find?_eq_none]
        intro hall
        exact hall stu hstu (by simp [hkey])
      cases hsf : st.students.find? (fun s => s.license_key == key) with
      | none => exact absurd hsf hfound
      | some s0 =>
        obtain ⟨pre2, post2, hsplit2, _, hs0, hupd2⟩ :=
          find?_updateFirst_decomp
            (fun s => { s with status := "active", started_at := some now }) hsf
        refine ⟨{ licenseKeys :=
                    updateFirst (fun x => x.key == key)
                      (fun x => { x with active := false }) st.licenseKeys,
                  signals := st.signals,
                  students :=
                    updateFirst (fun s => s.license_key == key)
                      (fun s => { s with status := "active", started_at := some now })
                      st.students },
          { s0 with status := "active", started_at := some now },
          ?_, by simpa using hs0, rfl, ?_⟩
        · exact studentStart_found key _ s0 now hne hsf
        · rw [vpsActiveStudents]
          simp only
          rw [hupd2]
          refine List.mem_filter.mpr ⟨?_, by simp⟩
          exact List.mem_append.mpr (Or.inr (List.mem_cons_self _ _))

theorem C10_deactivate_frame_effect_witness :
    (deactivateLicenseLegacy "EDF-AAA-BBB" sampleState).2.students =
        sampleState.students ∧
    (deactivateLicenseLegacy "EDF-AAA-BBB" sampleState).2.signals =
        sampleState.signals ∧
    (∃ pre l post, sampleState.licenseKeys = pre ++ l :: post ∧
      l.key = "EDF-AAA-BBB" ∧
      (∀ x ∈ pre, (x.key == "EDF-AAA-BBB") = false) ∧
      (deactivateLicenseLegacy "EDF-AAA-BBB" sampleState).2.licenseKeys =
        pre ++ { l with active := false } :: post) ∧
    (∃ st2 stu2,
      studentStart (some "EDF-AAA-BBB") 123
        (deactivateLicenseLegacy "EDF-AAA-BBB" sampleState).2 = (.started, st2) ∧
      stu2.license_key = "EDF-AAA-BBB" ∧ stu2.status = "active" ∧
      stu2 ∈ vpsActiveStudents st2) := by
  have h := C10_deactivate_frame_effect "EDF-AAA-BBB" sampleState
    (deactivateLicenseLegacy "EDF-AAA-BBB" sampleState).2 123 sampleStudent
    (by decide) (by decide) rfl (by decide)
  exact h

end EdgeFlow
